import Mathlib

/-!
Shallow embedding of `vsscale/rescale.py` (classes `RescaleBase` and `Rescale`):
the lazily-evaluated derived-frame graph (`descale`, `rescale`, `doubled`,
`upscale`) with its memoization and invalidation machinery, the masked upscale
composition, the two-pass ignore-mask descale, and the frame-property tagging.

Clips are modelled as total pixel maps with dimensions, a pixel format
(bit depth; `none` models a variable-format clip) and a frame-property list.
External collaborators (resampling kernels, the doubling model, the final
downscaler, the field-based policy) are carried as function-valued fields of
the embedded objects: only the interface facts the source relies on (output
dimensions, property passthrough) are fixed by the embedding, pixel content
stays arbitrary.  Stateful Python attribute access is modelled by explicit
state passing: each property read returns the value together with the
possibly-updated object.
-/

namespace VsScale

/-- A video clip: dimensions, pixel format (`some depth` for a constant
integer format of that bit depth, `none` for a variable-format clip), a total
luma pixel map and frame-level string properties. -/
structure Clip where
  width : Nat
  height : Nat
  format : Option Nat
  pixels : Nat → Nat → Nat
  props : List (String × String)

/-- `get_peak_value(clip, False, ColorRange.FULL)`: peak luma value of a
full-range integer format of bit depth `d` is `2 ^ d - 1`. -/
def peakValue (c : Clip) : Nat :=
  match c.format with
  | some d => 2 ^ d - 1
  | none => 0

/-- `std.SetFrameProp(key, data=val)`. -/
def setFrameProp (c : Clip) (key val : String) : Clip :=
  { c with props := (key, val) :: c.props }

/-- Frame-property lookup (first binding wins). -/
def lookupProp (c : Clip) (key : String) : Option String :=
  (c.props.find? (fun p => p.1 == key)).map (fun p => p.2)

/-- `std.CopyFrameProps(src)`: keep pixels, take the properties of `src`. -/
def copyFrameProps (c src : Clip) : Clip :=
  { c with props := src.props }

/-- `std.BlankClip(color=color)`: same dimensions and format, constant pixels. -/
def blankClip (c : Clip) (color : Nat) : Clip :=
  { c with pixels := fun _ _ => color, props := [] }

/-- `std.MaskedMerge(a, b, m)` for a full-range mask: where the mask is 0 the
output is `a`, where it is at peak the output is `b`, in between the two are
blended proportionally.  Output geometry and properties come from `a`. -/
def maskedMerge (a b m : Clip) : Clip :=
  { a with pixels := fun x y =>
      (a.pixels x y * (peakValue m - m.pixels x y) + b.pixels x y * m.pixels x y) / peakValue m }

/-- `std.Crop(left, right, top, bottom)`. -/
def cropClip (c : Clip) (l r t b : Nat) : Clip :=
  { c with width := c.width - (l + r), height := c.height - (t + b),
           pixels := fun x y => c.pixels (x + l) (y + t) }

/-- `std.AddBorders(left, right, top, bottom)`: pad with black. -/
def addBorders (c : Clip) (l r t b : Nat) : Clip :=
  { c with width := c.width + l + r, height := c.height + t + b,
           pixels := fun x y =>
             if l ≤ x ∧ x < l + c.width ∧ t ≤ y ∧ y < t + c.height then
               c.pixels (x - l) (y - t)
             else 0 }

/-- Modelled from the spec: `norm_expr` over `_get_region_expr(clip, l, r, t, b,
replace)` (vsmasktools, an external collaborator) paints every pixel of the
border region — within `l` columns of the left edge, `r` of the right, `t` rows
of the top, `b` of the bottom — to the replacement value and keeps the clip's
own value elsewhere. -/
def regionReplace (c : Clip) (l r t b v : Nat) : Clip :=
  { c with pixels := fun x y =>
      if x < l ∨ c.width - r ≤ x ∨ y < t ∨ c.height - b ≤ y then v
      else c.pixels x y }

/-- `Point.scale(mask, height=h)`: nearest-neighbour resize of the mask to the
given height (width unchanged). -/
def pointScale (c : Clip) (h : Nat) : Clip :=
  { c with height := h, pixels := fun x y => c.pixels x (y * c.height / h) }

/-- `FieldBased.PROGRESSIVE.apply`: re-mark the clip as progressive. -/
def markProgressive (c : Clip) : Clip :=
  setFrameProp c "_FieldBased" "0"

/-- A full video node as handed to the constructors: top-level geometry and
format plus the planes `split` produces (luma first, then chroma). -/
structure Video where
  width : Nat
  height : Nat
  format : Option Nat
  y : Clip
  chroma : List Clip

/-- `join(y, *chroma)`. -/
def joinVideo (y : Clip) (chroma : List Clip) : Video :=
  { width := y.width, height := y.height, format := y.format, y := y, chroma := chroma }

/-- Keyword-argument bundle handed from `ScalingArgs.kwargs()` to a kernel
call; its content is produced by the (spec-modelled) `ScalingArgs` and
consumed opaquely by the kernels. -/
structure KwArgs where
  entries : List (String × ℚ)

/-- `ScalingArgs.mode`: which axes a kernel call is parameterized for. -/
inductive SMode where
  | h
  | w
  | hw
deriving DecidableEq

/-- Modelled from the spec: `ScalingArgs` (defined in `vsscale/helpers.py`,
which is not among the provided sources).  It records the effective fractional
source dimensions, the integer target dimensions and the current axis mode;
`kwargs` regenerates kernel keyword arguments from the current mode and an
optional alternative reference clip, via an abstract generation function. -/
structure ScalingArgs where
  src_width : ℚ
  src_height : ℚ
  width : Nat
  height : Nat
  mode : SMode
  kwargsFn : SMode → Option Clip → KwArgs

/-- Modelled from the spec: `ScalingArgs.kwargs(ref?)` generates the kernel
keyword arguments for the current mode. -/
def ScalingArgs.kwargs (sa : ScalingArgs) (ref : Option Clip) : KwArgs :=
  sa.kwargsFn sa.mode ref

/-- A descale/rescale kernel: class name, support radius, and abstract pixel
producers for its inverse (`descale`) and forward (`scale`) resamplers. -/
structure Kernel where
  name : String
  kernel_radius : Nat
  descaleFn : Clip → Option Nat → Option Nat → KwArgs → Nat → Option Clip → Nat → Nat → Nat
  scaleFn : Clip → Nat → Nat → KwArgs → Nat → Nat → Nat → Nat

/-- `kernel.descale(clip, w?, h?, **kwargs, border_handling, ignore_mask?)`:
the output has the requested dimensions (an axis passed as `None` keeps the
input's size on that axis); pixel content is the kernel's own business. -/
def Kernel.descale (k : Kernel) (c : Clip) (w h : Option Nat) (kw : KwArgs)
    (bh : Nat) (im : Option Clip) : Clip :=
  { width := w.getD c.width, height := h.getD c.height, format := c.format,
    pixels := k.descaleFn c w h kw bh im, props := c.props }

/-- `kernel.scale(clip, w, h, **kwargs, border_handling)`. -/
def Kernel.scale (k : Kernel) (c : Clip) (w h : Nat) (kw : KwArgs) (bh : Nat) : Clip :=
  { width := w, height := h, format := c.format,
    pixels := k.scaleFn c w h kw bh, props := c.props }

/-- The final downscaler (`Scaler.scale(clip, w, h, **kwargs)`). -/
structure Scaler where
  name : String
  scaleFn : Clip → Nat → Nat → KwArgs → Nat → Nat → Nat

/-- `scaler.scale(clip, w, h, **kwargs)`: output at the requested size. -/
def Scaler.scale (s : Scaler) (c : Clip) (w h : Nat) (kw : KwArgs) : Clip :=
  { width := w, height := h, format := c.format,
    pixels := s.scaleFn c w h kw, props := c.props }

/-- The doubling model (`upscaler.multi(clip, 2)`). -/
structure Doubler where
  name : String
  multiFn : Clip → Nat → Nat → Nat → Nat

/-- `upscaler.multi(clip, f)`: output at `f` times the input size. -/
def Doubler.multi (u : Doubler) (c : Clip) (f : Nat) : Clip :=
  { width := c.width * f, height := c.height * f, format := c.format,
    pixels := u.multiFn c f, props := c.props }

/-- A field-based (interlace-handling) policy: its `apply` transform. -/
structure FieldBasedPolicy where
  applyFn : Clip → Clip

/-- `_apply_field_based`: wrap a generation function so that, when a policy is
configured, the input is field-transformed first and the result re-marked
progressive; otherwise run the function unchanged. -/
def applyFieldBased (fb : Option FieldBasedPolicy) (f : Clip → Clip) (c : Clip) : Clip :=
  match fb with
  | some p => markProgressive (f (p.applyFn c))
  | none => f c

/-- Two-character zero-padded rendering of the fractional cents. -/
def twoPad (n : Nat) : String :=
  if n < 10 then "0" ++ toString n else toString n

/-- The dimension rendering of `_add_props`:
`f"{int(d)}" if d.is_integer() else f"{d:.2f}"` — integers without decimals,
fractional values with exactly two decimal places. -/
def fmtDim (d : ℚ) : String :=
  if d.den = 1 then toString d.num
  else toString (round (d * 100) / 100 : ℤ) ++ "." ++ twoPad ((round (d * 100) : ℤ) % 100).toNat

/-- Python `str.split(sep)` on a single-character separator (empty pieces are
kept, as Python does). -/
def pySplit (sep : Char) : List Char → List (List Char)
  | [] => [[]]
  | c :: cs =>
    match pySplit sep cs with
    | [] => [[]]
    | g :: gs => if c = sep then [] :: g :: gs else (c :: g) :: gs

/-- Python `str.capitalize()`: first character uppercased, the rest
lowercased. -/
def pyCapitalize : List Char → List Char
  | [] => []
  | c :: cs => c.toUpper :: cs.map Char.toLower

/-- `function.__name__.split('_')[-1].capitalize()`. -/
def propSuffix (pyName : String) : String :=
  String.mk (pyCapitalize ((pySplit '_' pyName.data).getLastD []))

/-- The frame-property key `_add_props` writes:
`"Rescale" + function.__name__.split('_')[-1].capitalize() + "From"`. -/
def propKeyOf (pyName : String) : String :=
  "Rescale" ++ propSuffix pyName ++ "From"

/-! The `RescaleBase` object state.  The four `cached_property` slots are
modelled as `Option`-valued fields of the instance dictionary (`none` means
the property has not been computed in the current validity epoch). -/

/-- `RescaleBase` instance state. -/
structure RescaleBase where
  clipy : Clip
  chroma : List Clip
  kernel : Kernel
  upscaler : Doubler
  downscaler : Scaler
  field_based : Option FieldBasedPolicy
  border_handling : Nat
  descale_args : ScalingArgs
  cache_descale : Option Clip
  cache_rescale : Option Clip
  cache_doubled : Option Clip
  cache_upscale : Option Video

/-- The data string `_add_props` records:
`f'{kernel class name} - {w} x {h}'` with `w`/`h` the rendered effective
source dimensions. -/
def tagData (rb : RescaleBase) : String :=
  rb.kernel.name ++ " - " ++ fmtDim rb.descale_args.src_width ++ " x "
    ++ fmtDim rb.descale_args.src_height

/-- `_add_props`: tag a generated clip with the producing function's name and
the kernel / effective source dimension data. -/
def addProps (rb : RescaleBase) (pyName : String) (c : Clip) : Clip :=
  setFrameProp c (propKeyOf pyName) (tagData rb)

/-- `RescaleBase._generate_descale` (field-based wrapped, prop tagged). -/
def RescaleBase._generate_descale (rb : RescaleBase) (clip : Clip) : Clip :=
  addProps rb "_generate_descale" (applyFieldBased rb.field_based
    (fun c => rb.kernel.descale c (some rb.descale_args.width) (some rb.descale_args.height)
      (rb.descale_args.kwargs none) rb.border_handling none) clip)

/-- `RescaleBase._generate_rescale` (field-based wrapped, prop tagged). -/
def RescaleBase._generate_rescale (rb : RescaleBase) (clip : Clip) : Clip :=
  addProps rb "_generate_rescale" (applyFieldBased rb.field_based
    (fun c => rb.kernel.scale c rb.clipy.width rb.clipy.height
      (rb.descale_args.kwargs none) rb.border_handling) clip)

/-- `RescaleBase._generate_doubled` (prop tagged, no field wrapping). -/
def RescaleBase._generate_doubled (rb : RescaleBase) (clip : Clip) : Clip :=
  addProps rb "_generate_doubled" (rb.upscaler.multi clip 2)

/-- `RescaleBase._generate_upscale` (prop tagged, no field wrapping); the
kwargs are regenerated from the doubled clip as reference. -/
def RescaleBase._generate_upscale (rb : RescaleBase) (clip : Clip) : Clip :=
  addProps rb "_generate_upscale" (rb.downscaler.scale clip rb.clipy.width rb.clipy.height
    (rb.descale_args.kwargs (some clip)))

/-- The `descale` cached property of `RescaleBase`: return the cached clip if
present, otherwise generate from the luma plane and cache. -/
def RescaleBase.descale (rb : RescaleBase) : Clip × RescaleBase :=
  match rb.cache_descale with
  | some c => (c, rb)
  | none =>
    let c := rb._generate_descale rb.clipy
    (c, { rb with cache_descale := some c })

/-- The `rescale` cached property: generated from the (possibly freshly
computed) `descale`. -/
def RescaleBase.rescale (rb : RescaleBase) : Clip × RescaleBase :=
  match rb.cache_rescale with
  | some c => (c, rb)
  | none =>
    let p := rb.descale
    let c := p.2._generate_rescale p.1
    (c, { p.2 with cache_rescale := some c })

/-- The `doubled` cached property: generated from `descale`. -/
def RescaleBase.doubled (rb : RescaleBase) : Clip × RescaleBase :=
  match rb.cache_doubled with
  | some c => (c, rb)
  | none =>
    let p := rb.descale
    let c := p.2._generate_doubled p.1
    (c, { p.2 with cache_doubled := some c })

/-- The `upscale` cached property: generated from `doubled` and rejoined with
the untouched chroma planes. -/
def RescaleBase.upscale (rb : RescaleBase) : Video × RescaleBase :=
  match rb.cache_upscale with
  | some v => (v, rb)
  | none =>
    let p := rb.doubled
    let v := joinVideo (p.2._generate_upscale p.1) p.2.chroma
    (v, { p.2 with cache_upscale := some v })

/-! The attribute-deletion machinery.  `__delattr__` is invoked by every
`delattr`/`del` on the instance; Python errors are modelled explicitly and the
CPython recursion limit as fuel.  A step returns the (possibly mutated)
instance together with an optional raised error, because Python state
mutations persist even when an exception propagates. -/

/-- The cache attributes `__delattr__` dispatches on. -/
inductive CachedAttr where
  | descale
  | rescale
  | doubled
  | upscale
deriving DecidableEq

/-- Python errors relevant to this layer. -/
inductive PyErr where
  | attributeError
  | recursionError
  | invalidInput
deriving DecidableEq

/-- Whether a cache attribute is present in the instance dictionary. -/
def hasCached (rb : RescaleBase) : CachedAttr → Bool
  | .descale => rb.cache_descale.isSome
  | .rescale => rb.cache_rescale.isSome
  | .doubled => rb.cache_doubled.isSome
  | .upscale => rb.cache_upscale.isSome

/-- Remove a cache attribute from the instance dictionary. -/
def clearCached (rb : RescaleBase) : CachedAttr → RescaleBase
  | .descale => { rb with cache_descale := none }
  | .rescale => { rb with cache_rescale := none }
  | .doubled => { rb with cache_doubled := none }
  | .upscale => { rb with cache_upscale := none }

/-- `object.__delattr__`: delete the instance-dictionary entry, raising
`AttributeError` when it is absent. -/
def objectDelattr (rb : RescaleBase) (a : CachedAttr) : RescaleBase × Option PyErr :=
  if hasCached rb a then (clearCached rb a, none) else (rb, some PyErr.attributeError)

/-- `RescaleBase.__delattr__` exactly as written in the source: after the
cascade (`_trydelattr('rescale')`/`_trydelattr('doubled')` for `descale`,
`_trydelattr('upscale')` for `doubled`) it ends with `delattr(self, __name)`,
and the builtin `delattr` dispatches back to this very `__delattr__` —
likewise `_trydelattr`'s `delattr(self, attr)` does (catching only
`AttributeError`).  `fuel` models the interpreter's recursion limit; fuel
exhaustion is `RecursionError`. -/
def pyDelattr : Nat → RescaleBase → CachedAttr → RescaleBase × Option PyErr
  | 0, rb, _ => (rb, some PyErr.recursionError)
  | fuel + 1, rb, a =>
    let tryDel : RescaleBase → CachedAttr → RescaleBase × Option PyErr := fun s m =>
      match pyDelattr fuel s m with
      | (s2, some PyErr.attributeError) => (s2, none)
      | r => r
    let step : RescaleBase × Option PyErr :=
      match a with
      | .descale =>
        match tryDel rb .rescale with
        | (s1, none) => tryDel s1 .doubled
        | e => e
      | .doubled => tryDel rb .upscale
      | _ => (rb, none)
    match step with
    | (s2, none) => pyDelattr fuel s2 a
    | e => e

/-- The deletion routine the source evidently intends (identical to
`pyDelattr` except that the final line performs the base `object.__delattr__`
instead of re-dispatching to the custom hook). -/
def fixedDelattr : Nat → RescaleBase → CachedAttr → RescaleBase × Option PyErr
  | 0, rb, _ => (rb, some PyErr.recursionError)
  | fuel + 1, rb, a =>
    let tryDel : RescaleBase → CachedAttr → RescaleBase × Option PyErr := fun s m =>
      match fixedDelattr fuel s m with
      | (s2, some PyErr.attributeError) => (s2, none)
      | r => r
    let step : RescaleBase × Option PyErr :=
      match a with
      | .descale =>
        match tryDel rb .rescale with
        | (s1, none) => tryDel s1 .doubled
        | e => e
      | .doubled => tryDel rb .upscale
      | _ => (rb, none)
    match step with
    | (s2, none) => objectDelattr s2 a
    | e => e

/-- Modelled from the spec: `check_variable` (vstools, an external
collaborator) recognizes a clip of variable format or variable resolution
(the engine reports zero dimensions for the latter). -/
def isVariable (clip : Video) : Bool :=
  clip.format.isNone || clip.width == 0 || clip.height == 0

/-- `RescaleBase.__init__`: the `check_variable` assertion precedes every
other step; on success the planes are split and the collaborators stored,
with all four cache slots initially absent. -/
def mkRescaleBase (clip : Video) (kernel : Kernel) (upscaler : Doubler) (downscaler : Scaler)
    (field_based : Option FieldBasedPolicy) (border_handling : Nat) (sa : ScalingArgs) :
    Except PyErr RescaleBase :=
  if isVariable clip then Except.error PyErr.invalidInput
  else Except.ok
    { clipy := clip.y, chroma := clip.chroma, kernel := kernel, upscaler := upscaler,
      downscaler := downscaler, field_based := field_based,
      border_handling := border_handling, descale_args := sa,
      cache_descale := none, cache_rescale := none, cache_doubled := none,
      cache_upscale := none }

/-! The `Rescale` subclass: mask state, crop state, the pre-crop source, the
ignore-mask two-pass descale and the masked upscale composition. -/

/-- `Rescale` instance state.  `_crop` is `(left, right, top, bottom)`;
`_pre` is the original unmodified clip.  The mask setters' bit-depth
conversion (`depth(mask, ..., dither_type=NONE)`) is treated as the identity
on the modelled pixel domain. -/
structure Rescale extends RescaleBase where
  _line_mask : Option Clip
  _credit_mask : Option Clip
  _ignore_mask : Option Clip
  _crop : Nat × Nat × Nat × Nat
  _pre : Video

/-- The `line_mask` property getter: fall back to a blank fully-opaque clip
when no mask is stored, paint the kernel-radius edge band to peak when border
handling is non-mirror, store the result back into `_line_mask` (a side
effect of the read), and return it. -/
def Rescale.line_mask (r : Rescale) : Clip × Rescale :=
  let lm := r._line_mask.getD (blankClip r.clipy (peakValue r.clipy))
  let lm2 :=
    if r.border_handling ≠ 0 then
      regionReplace lm r.kernel.kernel_radius r.kernel.kernel_radius
        r.kernel.kernel_radius r.kernel.kernel_radius (peakValue lm)
    else lm
  (lm2, { r with _line_mask := some lm2 })

/-- The `credit_mask` property getter: return the stored mask, or store and
return a blank (all-transparent) clip. -/
def Rescale.credit_mask (r : Rescale) : Clip × Rescale :=
  match r._credit_mask with
  | some m => (m, r)
  | none =>
    let m := blankClip r.clipy 0
    (m, { r with _credit_mask := some m })

/-- The two sequential single-axis passes of the ignore-mask descale:
height-only with the ignore mask at source resolution, then width-only on the
height-descaled intermediate with the mask point-resized to the
intermediate's height; `ScalingArgs.mode` is switched to `h`, then `w`, then
restored to `hw`. -/
def Rescale.descaleIgnorePasses (r : Rescale) (im : Clip) (clip : Clip) :
    Clip × ScalingArgs :=
  let sa1 := { r.descale_args with mode := SMode.h }
  let descale_h := r.kernel.descale clip none (some sa1.height) (sa1.kwargs none)
    r.border_handling (some im)
  let sa2 := { sa1 with mode := SMode.w }
  let descale_w := r.kernel.descale descale_h (some sa2.width) none (sa2.kwargs none)
    r.border_handling (some (pointScale im descale_h.height))
  let sa3 := { sa2 with mode := SMode.hw }
  (descale_w, sa3)

/-- `Rescale._generate_descale`: without an ignore mask, defer to the base
single-pass generator; with one, run the decorated inner function
`_generate_descale_ignore_mask` (field-based wrapped, prop tagged — note the
tag key is derived from the inner function's name).  The tag's source
dimensions are read before the body runs; mode switches do not affect them. -/
def Rescale._generate_descale (r : Rescale) (clip : Clip) : Clip × Rescale :=
  match r._ignore_mask with
  | none => (r.toRescaleBase._generate_descale clip, r)
  | some im =>
    match r.field_based with
    | none =>
      let p := r.descaleIgnorePasses im clip
      (addProps r.toRescaleBase "_generate_descale_ignore_mask" p.1,
       { r with descale_args := p.2 })
    | some fb =>
      let p := r.descaleIgnorePasses im (fb.applyFn clip)
      (addProps r.toRescaleBase "_generate_descale_ignore_mask" (markProgressive p.1),
       { r with descale_args := p.2 })

/-- First conditional merge of the upscale composition: when a line mask is
stored or border handling is non-mirror, masked-merge the original luma with
the upscaled result under the `line_mask` property (whose read may store a
default), then copy the upscale's frame properties. -/
def Rescale.lineMergeStage (r : Rescale) (upscale : Clip) : Clip × Rescale :=
  if r._line_mask.isSome ∨ r.border_handling ≠ 0 then
    let p := r.line_mask
    (copyFrameProps (maskedMerge p.2.clipy upscale p.1) upscale, p.2)
  else (upscale, r)

/-- Second conditional merge: when a credit mask is stored, masked-merge the
upscaled result with the original luma under the credit mask. -/
def Rescale.creditMergeStage (r : Rescale) (upscale : Clip) : Clip × Rescale :=
  if r._credit_mask.isSome then
    let p := r.credit_mask
    (maskedMerge upscale p.2.clipy p.1, p.2)
  else (upscale, r)

/-- Third conditional step: when cropping was requested (`self._crop >
(0, 0, 0, 0)` — for the nonnegative crop tuples this lexicographic comparison
holds exactly when the tuple is nonzero), add the crop borders back and merge
against the pre-crop source luma under a mask painted to peak exactly on the
border region of a blank clip. -/
def Rescale.cropRestoreStage (r : Rescale) (upscale : Clip) : Clip :=
  if r._crop ≠ (0, 0, 0, 0) then
    let pre_y := r._pre.y
    let black := blankClip pre_y 0
    let mask := regionReplace black r._crop.1 r._crop.2.1 r._crop.2.2.1 r._crop.2.2.2
      (peakValue black)
    maskedMerge (addBorders upscale r._crop.1 r._crop.2.1 r._crop.2.2.1 r._crop.2.2.2)
      pre_y mask
  else upscale

/-- `Rescale._generate_upscale`: the base downscale followed by the three
conditional merges. -/
def Rescale._generate_upscale (r : Rescale) (clip : Clip) : Clip × Rescale :=
  let upscale := r.toRescaleBase._generate_upscale clip
  let p1 := r.lineMergeStage upscale
  let p2 := p1.2.creditMergeStage p1.1
  (p2.2.cropRestoreStage p2.1, p2.2)

/-- The `descale` cached property on a `Rescale` instance (dynamic dispatch
to the overridden generator, whose ignore-mask path updates
`descale_args`). -/
def Rescale.descale (r : Rescale) : Clip × Rescale :=
  match r.cache_descale with
  | some c => (c, r)
  | none =>
    let p := r._generate_descale r.clipy
    (p.1, { p.2 with cache_descale := some p.1 })

/-- The `rescale` cached property on a `Rescale` instance. -/
def Rescale.rescale (r : Rescale) : Clip × Rescale :=
  match r.cache_rescale with
  | some c => (c, r)
  | none =>
    let p := r.descale
    let c := p.2.toRescaleBase._generate_rescale p.1
    (c, { p.2 with cache_rescale := some c })

/-- The `doubled` cached property on a `Rescale` instance. -/
def Rescale.doubled (r : Rescale) : Clip × Rescale :=
  match r.cache_doubled with
  | some c => (c, r)
  | none =>
    let p := r.descale
    let c := p.2.toRescaleBase._generate_doubled p.1
    (c, { p.2 with cache_doubled := some c })

/-- The `upscale` cached property on a `Rescale` instance (dynamic dispatch
to the overridden generator, whose mask reads may store defaults). -/
def Rescale.upscale (r : Rescale) : Video × Rescale :=
  match r.cache_upscale with
  | some v => (v, r)
  | none =>
    let p := r.doubled
    let q := p.2._generate_upscale p.1
    let v := joinVideo q.1 q.2.chroma
    (v, { q.2 with cache_upscale := some v })

/-- `Rescale.__init__`: mask state, crop and the pre-crop source are set, the
(spec-modelled) `ScalingArgs` is installed, the base constructor runs its
`check_variable` assertion, and on success the luma plane is replaced by its
cropped version when a nonzero crop was requested. -/
def mkRescale (clip : Video) (kernel : Kernel) (upscaler : Doubler) (downscaler : Scaler)
    (crop : Nat × Nat × Nat × Nat) (field_based : Option FieldBasedPolicy)
    (border_handling : Nat) (sa : ScalingArgs) : Except PyErr Rescale :=
  match mkRescaleBase clip kernel upscaler downscaler field_based border_handling sa with
  | Except.error e => Except.error e
  | Except.ok base =>
    let base2 :=
      if crop ≠ (0, 0, 0, 0) then
        { base with clipy := cropClip base.clipy crop.1 crop.2.1 crop.2.2.1 crop.2.2.2 }
      else base
    Except.ok
      { toRescaleBase := base2, _line_mask := none, _credit_mask := none,
        _ignore_mask := none, _crop := crop, _pre := clip }

/-! Concrete example instances, used to witness hypotheses and to exhibit
counterexamples.  The collaborator pixel functions are instantiated with
distinguishable constants. -/

/-- A concrete 1920x1080 8-bit luma plane with every pixel at 100. -/
def exClipY : Clip :=
  { width := 1920, height := 1080, format := some 8, pixels := fun _ _ => 100, props := [] }

/-- The concrete source video (no chroma planes, for brevity). -/
def exPre : Video :=
  { width := 1920, height := 1080, format := some 8, y := exClipY, chroma := [] }

/-- A concrete kernel whose resamplers output constant pixels 25 / 30. -/
def exKernel : Kernel :=
  { name := "Bilinear", kernel_radius := 1,
    descaleFn := fun _ _ _ _ _ _ => fun _ _ => 25,
    scaleFn := fun _ _ _ _ _ => fun _ _ => 30 }

/-- A concrete downscaler whose output pixels are the constant 50. -/
def exScaler : Scaler :=
  { name := "Hermite", scaleFn := fun _ _ _ _ => fun _ _ => 50 }

/-- A concrete doubling model whose output pixels are the constant 60. -/
def exDoubler : Doubler :=
  { name := "ArtCNN", multiFn := fun _ _ => fun _ _ => 60 }

/-- A concrete ScalingArgs for a 1280x720 descale of the 1920x1080 source. -/
def exSA : ScalingArgs :=
  { src_width := 1280, src_height := 720, width := 1280, height := 720,
    mode := SMode.hw, kwargsFn := fun _ _ => { entries := [] } }

/-- A concrete freshly-constructed RescaleBase (all caches empty). -/
def exBase : RescaleBase :=
  { clipy := exClipY, chroma := [], kernel := exKernel, upscaler := exDoubler,
    downscaler := exScaler, field_based := none, border_handling := 0,
    descale_args := exSA, cache_descale := none, cache_rescale := none,
    cache_doubled := none, cache_upscale := none }

/-- A concrete freshly-constructed Rescale (no masks, no crop). -/
def exRescale : Rescale :=
  { toRescaleBase := exBase, _line_mask := none, _credit_mask := none,
    _ignore_mask := none, _crop := (0, 0, 0, 0), _pre := exPre }

/-- A fully-opaque (peak-valued) 8-bit mask at source resolution. -/
def exPeakMask : Clip :=
  { width := 1920, height := 1080, format := some 8, pixels := fun _ _ => 255, props := [] }

/-- An all-zero 8-bit clip at source resolution (ignore-mask example). -/
def exGray : Clip :=
  { width := 1920, height := 1080, format := some 8, pixels := fun _ _ => 0, props := [] }

/-! Projection lemmas: the mask-property reads touch only their own mask slot
of the instance. -/

@[simp]
theorem line_mask_snd_toBase (r : Rescale) :
    r.line_mask.2.toRescaleBase = r.toRescaleBase := rfl

@[simp]
theorem line_mask_snd_credit (r : Rescale) :
    r.line_mask.2._credit_mask = r._credit_mask := rfl

@[simp]
theorem line_mask_snd_crop (r : Rescale) : r.line_mask.2._crop = r._crop := rfl

@[simp]
theorem line_mask_snd_pre (r : Rescale) : r.line_mask.2._pre = r._pre := rfl

@[simp]
theorem line_mask_snd_clipy (r : Rescale) : r.line_mask.2.clipy = r.clipy := rfl

@[simp]
theorem copyFrameProps_pixels (c src : Clip) :
    (copyFrameProps c src).pixels = c.pixels := rfl

@[simp]
theorem copyFrameProps_width (c src : Clip) :
    (copyFrameProps c src).width = c.width := rfl

@[simp]
theorem copyFrameProps_height (c src : Clip) :
    (copyFrameProps c src).height = c.height := rfl

/-- Where the mask is at peak, a masked merge returns the second clip's
pixel. -/
theorem maskedMerge_pixels_peak (a b m : Clip) (x y : Nat)
    (hp : 0 < peakValue m) (h : m.pixels x y = peakValue m) :
    (maskedMerge a b m).pixels x y = b.pixels x y := by
  simp [maskedMerge, h, Nat.sub_self, Nat.mul_div_cancel _ hp]

/-- Where the mask is zero, a masked merge returns the first clip's pixel. -/
theorem maskedMerge_pixels_zero (a b m : Clip) (x y : Nat)
    (hp : 0 < peakValue m) (h : m.pixels x y = 0) :
    (maskedMerge a b m).pixels x y = a.pixels x y := by
  simp [maskedMerge, h, Nat.mul_div_cancel _ hp]

/-- When a line mask is stored or border handling is non-mirror, the first
merge stage is the masked merge of the original luma with the upscaled
result under the (possibly just-defaulted) line mask. -/
theorem lineMergeStage_of_cond (r : Rescale) (u : Clip)
    (h : r._line_mask.isSome ∨ r.border_handling ≠ 0) :
    r.lineMergeStage u
      = (copyFrameProps (maskedMerge r.clipy u r.line_mask.1) u, r.line_mask.2) := by
  unfold Rescale.lineMergeStage
  rw [if_pos h]
  simp

/-- With no stored line mask and mirror border handling, the first merge
stage does nothing. -/
theorem lineMergeStage_of_none (r : Rescale) (u : Clip)
    (hlm : r._line_mask = none) (hbh : r.border_handling = 0) :
    r.lineMergeStage u = (u, r) := by
  unfold Rescale.lineMergeStage
  rw [if_neg]
  simp [hlm, hbh]

/-- With a stored credit mask, the second merge stage is the masked merge of
the upscaled result with the original luma under that mask. -/
theorem creditMergeStage_of_some (r : Rescale) (u m : Clip)
    (h : r._credit_mask = some m) :
    r.creditMergeStage u = (maskedMerge u r.clipy m, r) := by
  unfold Rescale.creditMergeStage
  rw [if_pos (by simp [h])]
  simp [Rescale.credit_mask, h]

/-- With no stored credit mask, the second merge stage does nothing. -/
theorem creditMergeStage_of_none (r : Rescale) (u : Clip)
    (h : r._credit_mask = none) :
    r.creditMergeStage u = (u, r) := by
  unfold Rescale.creditMergeStage
  rw [if_neg]
  simp [h]

/-- With a zero crop tuple, the crop-restoration step does nothing. -/
theorem cropRestoreStage_of_zero (r : Rescale) (u : Clip)
    (h : r._crop = (0, 0, 0, 0)) :
    r.cropRestoreStage u = u := by
  unfold Rescale.cropRestoreStage
  rw [if_neg]
  simp [h]

/-- Reading `line_mask` with no stored mask and mirror border handling
returns the blank fully-opaque default and stores it. -/
theorem line_mask_read_default (r : Rescale)
    (hlm : r._line_mask = none) (hbh : r.border_handling = 0) :
    r.line_mask
      = (blankClip r.clipy (peakValue r.clipy),
         { r with _line_mask := some (blankClip r.clipy (peakValue r.clipy)) }) := by
  simp [Rescale.line_mask, hlm, hbh]

/-- Reading `line_mask` with a stored mask and mirror border handling
returns the stored mask (and re-stores it). -/
theorem line_mask_read_stored (r : Rescale) (m : Clip)
    (hlm : r._line_mask = some m) (hbh : r.border_handling = 0) :
    r.line_mask = (m, { r with _line_mask := some m }) := by
  simp [Rescale.line_mask, hlm, hbh]

/-- The faithful `__delattr__` model never terminates normally: for every
recursion limit, every instance state and every attribute, the call ends in
`RecursionError` with the instance state untouched (the base deletion that
would mutate the dictionary is unreachable). -/
theorem pyDelattr_recursion (fuel : Nat) (rb : RescaleBase) (a : CachedAttr) :
    pyDelattr fuel rb a = (rb, some PyErr.recursionError) := by
  induction fuel generalizing rb a with
  | zero => rfl
  | succ n ih => cases a <;> simp [pyDelattr, ih]

/-- The intended deletion routine (final line dispatching to
`object.__delattr__`) realizes the documented invalidation chain: deleting
`descale` clears `rescale`, `doubled` and (transitively, via `doubled`'s
cascade) `upscale`; deleting `doubled` clears `upscale` and leaves `descale`
and `rescale` untouched. -/
theorem fixedDelattr_invalidation (fuel : Nat) (rb : RescaleBase) :
    ((fixedDelattr (fuel + 3) rb CachedAttr.descale).1.cache_rescale = none
      ∧ (fixedDelattr (fuel + 3) rb CachedAttr.descale).1.cache_doubled = none
      ∧ (fixedDelattr (fuel + 3) rb CachedAttr.descale).1.cache_upscale = none)
    ∧ ((fixedDelattr (fuel + 3) rb CachedAttr.doubled).1.cache_upscale = none
      ∧ (fixedDelattr (fuel + 3) rb CachedAttr.doubled).1.cache_descale = rb.cache_descale
      ∧ (fixedDelattr (fuel + 3) rb CachedAttr.doubled).1.cache_rescale = rb.cache_rescale) := by
  cases hr : rb.cache_rescale <;> cases hd : rb.cache_doubled <;>
    cases hu : rb.cache_upscale <;> cases hds : rb.cache_descale <;>
    simp [fixedDelattr, objectDelattr, hasCached, clearCached, hr, hd, hu, hds]

/-- C1: the claimed invalidation chain (deleting the cached `descale` clears
`rescale` and `doubled`, and transitively `upscale`) matches the evident
intent of `RescaleBase.__delattr__`, but the code as written can never
perform it: the method's final statement `delattr(self, __name)` dispatches
straight back to `__delattr__` itself, so deleting `descale` on any instance
recurses until `RecursionError` and clears nothing. -/
theorem delattr_descale_always_recursion_error (fuel : Nat) (rb : RescaleBase) :
    pyDelattr fuel rb CachedAttr.descale = (rb, some PyErr.recursionError) :=
  pyDelattr_recursion fuel rb CachedAttr.descale

/-- C8: deleting a cache entry that was never computed is claimed to be a
silent no-op; on the code as written it instead raises `RecursionError`
(every deletion re-enters `__delattr__` through its final
`delattr(self, __name)`), shown here on an instance with all four cache
slots empty. -/
theorem delattr_uncached_raises_recursion_error (fuel : Nat) (rb : RescaleBase)
    (a : CachedAttr) :
    pyDelattr fuel
      { rb with cache_descale := none, cache_rescale := none,
                cache_doubled := none, cache_upscale := none } a
      = ({ rb with cache_descale := none, cache_rescale := none,
                   cache_doubled := none, cache_upscale := none },
         some PyErr.recursionError) :=
  pyDelattr_recursion fuel _ a

/-- C2: each derived property (`descale`, `rescale`, `doubled`, `upscale`)
is memoized — reading it a second time with no intervening mutation returns
the same cached clip value and leaves the instance unchanged — both on
`RescaleBase` and on `Rescale` (where generation dispatches to the overridden
generators). -/
theorem derived_properties_memoized :
    (∀ rb : RescaleBase,
      rb.descale.2.descale = (rb.descale.1, rb.descale.2)
      ∧ rb.rescale.2.rescale = (rb.rescale.1, rb.rescale.2)
      ∧ rb.doubled.2.doubled = (rb.doubled.1, rb.doubled.2)
      ∧ rb.upscale.2.upscale = (rb.upscale.1, rb.upscale.2))
    ∧ (∀ r : Rescale,
      r.descale.2.descale = (r.descale.1, r.descale.2)
      ∧ r.rescale.2.rescale = (r.rescale.1, r.rescale.2)
      ∧ r.doubled.2.doubled = (r.doubled.1, r.doubled.2)
      ∧ r.upscale.2.upscale = (r.upscale.1, r.upscale.2)) := by
  constructor
  · intro rb
    refine ⟨?_, ?_, ?_, ?_⟩
    · cases h : rb.cache_descale <;> simp [RescaleBase.descale, h]
    · cases h : rb.cache_rescale <;> simp [RescaleBase.rescale, h]
    · cases h : rb.cache_doubled <;> simp [RescaleBase.doubled, h]
    · cases h : rb.cache_upscale <;> simp [RescaleBase.upscale, h]
  · intro r
    refine ⟨?_, ?_, ?_, ?_⟩
    · cases h : r.cache_descale <;> simp [Rescale.descale, h]
    · cases h : r.cache_rescale <;> simp [Rescale.rescale, h]
    · cases h : r.cache_doubled <;> simp [Rescale.doubled, h]
    · cases h : r.cache_upscale <;> simp [Rescale.upscale, h]

/-- C9: constructing a `RescaleBase` or a `Rescale` fails with the
invalid-input error exactly when the input clip has variable format or
variable resolution; the check is the constructor's first act, so no instance
(and hence no derived-property access) exists on failure. -/
theorem construction_rejects_variable_clip :
    ∀ (clip : Video) (kernel : Kernel) (upscaler : Doubler) (downscaler : Scaler)
      (field_based : Option FieldBasedPolicy) (border_handling : Nat)
      (sa : ScalingArgs) (crop : Nat × Nat × Nat × Nat),
      (mkRescaleBase clip kernel upscaler downscaler field_based border_handling sa
          = Except.error PyErr.invalidInput ↔ isVariable clip = true)
      ∧ (mkRescale clip kernel upscaler downscaler crop field_based border_handling sa
          = Except.error PyErr.invalidInput ↔ isVariable clip = true) := by
  intro clip kernel upscaler downscaler field_based border_handling sa crop
  cases h : isVariable clip <;> simp [mkRescaleBase, mkRescale, h]

/-- The concrete instance with an all-opaque line mask stored. -/
def exRescaleLM : Rescale := { exRescale with _line_mask := some exPeakMask }

/-- The concrete instance with an all-opaque credit mask stored. -/
def exRescaleCM : Rescale := { exRescale with _credit_mask := some exPeakMask }

/-- C3 counterexample: on the concrete instance whose stored line mask is
opaque (at peak) at pixel (0,0), the upscale composition returns the base
upscaled pixel value 50 there — not the original luma value 100 as the claim
states (`MaskedMerge(clipy, upscale, line_mask)` selects its second clip
where the mask is at peak). -/
theorem line_merge_direction_cex :
    exRescaleLM.line_mask.1.pixels 0 0 = peakValue exRescaleLM.line_mask.1
    ∧ (exRescaleLM.toRescaleBase._generate_upscale exClipY).pixels 0 0 = 50
    ∧ exRescaleLM.clipy.pixels 0 0 = 100
    ∧ (exRescaleLM._generate_upscale exClipY).1.pixels 0 0 = 50 :=
  ⟨rfl, rfl, rfl, rfl⟩

/-- C3 (amended): when a line mask is set or border handling is non-mirror,
the upscale composition masked-merges so that pixels where the line mask is
opaque take the base upscaled result and pixels where it is fully transparent
keep the original luma; with neither condition, no line-mask merge is
performed (shown with no credit mask and no crop, which isolates this
stage). -/
theorem line_merge_semantics (r : Rescale) (c : Clip) (x y : Nat)
    (hcm : r._credit_mask = none) (hcrop : r._crop = (0, 0, 0, 0)) :
    ((r._line_mask.isSome ∨ r.border_handling ≠ 0) →
      0 < peakValue r.line_mask.1 →
      (r.line_mask.1.pixels x y = peakValue r.line_mask.1 →
        (r._generate_upscale c).1.pixels x y
          = (r.toRescaleBase._generate_upscale c).pixels x y)
      ∧ (r.line_mask.1.pixels x y = 0 →
        (r._generate_upscale c).1.pixels x y = r.clipy.pixels x y))
    ∧ (r._line_mask = none → r.border_handling = 0 →
      (r._generate_upscale c).1 = r.toRescaleBase._generate_upscale c) := by
  constructor
  · intro hcond hp
    have hres : (r._generate_upscale c).1
        = copyFrameProps
            (maskedMerge r.clipy (r.toRescaleBase._generate_upscale c) r.line_mask.1)
            (r.toRescaleBase._generate_upscale c) := by
      simp only [Rescale._generate_upscale]
      rw [lineMergeStage_of_cond r _ hcond,
          creditMergeStage_of_none _ _ (by simp [hcm]),
          cropRestoreStage_of_zero _ _ (by simp [hcrop])]
    constructor
    · intro hpk
      rw [hres, copyFrameProps_pixels]
      exact maskedMerge_pixels_peak _ _ _ x y hp hpk
    · intro h0
      rw [hres, copyFrameProps_pixels]
      exact maskedMerge_pixels_zero _ _ _ x y hp h0
  · intro hlm hbh
    simp only [Rescale._generate_upscale]
    rw [lineMergeStage_of_none _ _ hlm hbh, creditMergeStage_of_none _ _ hcm,
        cropRestoreStage_of_zero _ _ hcrop]

/-- C3 witness: the amended line-merge semantics applied to the concrete
instance with an all-opaque line mask, at pixel (0,0). -/
theorem line_merge_semantics_witness :
    exRescaleLM._credit_mask = none ∧ exRescaleLM._crop = (0, 0, 0, 0)
    ∧ (((exRescaleLM._line_mask.isSome ∨ exRescaleLM.border_handling ≠ 0) →
        0 < peakValue exRescaleLM.line_mask.1 →
        (exRescaleLM.line_mask.1.pixels 0 0 = peakValue exRescaleLM.line_mask.1 →
          (exRescaleLM._generate_upscale exClipY).1.pixels 0 0
            = (exRescaleLM.toRescaleBase._generate_upscale exClipY).pixels 0 0)
        ∧ (exRescaleLM.line_mask.1.pixels 0 0 = 0 →
          (exRescaleLM._generate_upscale exClipY).1.pixels 0 0
            = exRescaleLM.clipy.pixels 0 0))
      ∧ (exRescaleLM._line_mask = none → exRescaleLM.border_handling = 0 →
        (exRescaleLM._generate_upscale exClipY).1
          = exRescaleLM.toRescaleBase._generate_upscale exClipY)) :=
  ⟨rfl, rfl, line_merge_semantics exRescaleLM exClipY 0 0 rfl rfl⟩

/-- C4 counterexample: on the concrete instance whose stored credit mask is
opaque at pixel (0,0), the upscale composition returns the original luma
value 100 there — not the base upscaled value 50 as the claim states
(`MaskedMerge(upscale, clipy, credit_mask)` selects its second clip, the
original luma, where the mask is at peak). -/
theorem credit_merge_direction_cex :
    exRescaleCM.credit_mask.1.pixels 0 0 = peakValue exRescaleCM.credit_mask.1
    ∧ (exRescaleCM.toRescaleBase._generate_upscale exClipY).pixels 0 0 = 50
    ∧ exRescaleCM.clipy.pixels 0 0 = 100
    ∧ (exRescaleCM._generate_upscale exClipY).1.pixels 0 0 = 100 :=
  ⟨rfl, rfl, rfl, rfl⟩

/-- C4 (amended): when a credit mask is set, the upscale composition
masked-merges in the direction opposite to the line-mask merge: pixels where
the credit mask is opaque keep the original luma and pixels where it is
fully transparent keep the upscaled result; with no credit mask, no credit
merge is performed (shown with no line mask, mirror borders and no crop,
which isolates this stage). -/
theorem credit_merge_semantics (r : Rescale) (c : Clip) (x y : Nat)
    (hlm : r._line_mask = none) (hbh : r.border_handling = 0)
    (hcrop : r._crop = (0, 0, 0, 0)) :
    (∀ m : Clip, r._credit_mask = some m →
      0 < peakValue m →
      (m.pixels x y = peakValue m →
        (r._generate_upscale c).1.pixels x y = r.clipy.pixels x y)
      ∧ (m.pixels x y = 0 →
        (r._generate_upscale c).1.pixels x y
          = (r.toRescaleBase._generate_upscale c).pixels x y))
    ∧ (r._credit_mask = none →
      (r._generate_upscale c).1 = r.toRescaleBase._generate_upscale c) := by
  constructor
  · intro m hm hp
    have hres : (r._generate_upscale c).1
        = maskedMerge (r.toRescaleBase._generate_upscale c) r.clipy m := by
      simp only [Rescale._generate_upscale]
      rw [lineMergeStage_of_none _ _ hlm hbh, creditMergeStage_of_some _ _ _ hm,
          cropRestoreStage_of_zero _ _ hcrop]
    constructor
    · intro hpk
      rw [hres]
      exact maskedMerge_pixels_peak _ _ _ x y hp hpk
    · intro h0
      rw [hres]
      exact maskedMerge_pixels_zero _ _ _ x y hp h0
  · intro hcm
    simp only [Rescale._generate_upscale]
    rw [lineMergeStage_of_none _ _ hlm hbh, creditMergeStage_of_none _ _ hcm,
        cropRestoreStage_of_zero _ _ hcrop]

/-- C4 witness: the amended credit-merge semantics applied to the concrete
instance with an all-opaque credit mask, at pixel (0,0). -/
theorem credit_merge_semantics_witness :
    exRescaleCM._line_mask = none ∧ exRescaleCM.border_handling = 0
    ∧ exRescaleCM._crop = (0, 0, 0, 0)
    ∧ ((∀ m : Clip, exRescaleCM._credit_mask = some m →
        0 < peakValue m →
        (m.pixels 0 0 = peakValue m →
          (exRescaleCM._generate_upscale exClipY).1.pixels 0 0
            = exRescaleCM.clipy.pixels 0 0)
        ∧ (m.pixels 0 0 = 0 →
          (exRescaleCM._generate_upscale exClipY).1.pixels 0 0
            = (exRescaleCM.toRescaleBase._generate_upscale exClipY).pixels 0 0))
      ∧ (exRescaleCM._credit_mask = none →
        (exRescaleCM._generate_upscale exClipY).1
          = exRescaleCM.toRescaleBase._generate_upscale exClipY)) :=
  ⟨rfl, rfl, rfl, credit_merge_semantics exRescaleCM exClipY 0 0 rfl rfl rfl⟩

/-- C10: on any instance whose line mask was never assigned and whose border
handling is the default mirror mode, merely reading the `line_mask` property
stores the generated default (a blank fully-opaque clip; the kernel-radius
edge overwrite only happens for non-mirror border handling) into the mask
state, and as a consequence a later upscale computation performs the
line-mask merge — whereas without that read no merge would occur. -/
theorem line_mask_read_enables_merge (r : Rescale) (c : Clip) :
    (let r0 : Rescale := { r with _line_mask := none, border_handling := 0,
                                  _credit_mask := none, _crop := (0, 0, 0, 0) }
     r0.line_mask.1 = blankClip r0.clipy (peakValue r0.clipy)
     ∧ r0.line_mask.2._line_mask = some (blankClip r0.clipy (peakValue r0.clipy))
     ∧ (r0._generate_upscale c).1 = r0.toRescaleBase._generate_upscale c
     ∧ (r0.line_mask.2._generate_upscale c).1
        = copyFrameProps
            (maskedMerge r0.clipy (r0.toRescaleBase._generate_upscale c)
              (blankClip r0.clipy (peakValue r0.clipy)))
            (r0.toRescaleBase._generate_upscale c)) := by
  intro r0
  have hread := line_mask_read_default r0 rfl rfl
  have hread2 :=
    line_mask_read_stored
      ({ r0 with _line_mask := some (blankClip r0.clipy (peakValue r0.clipy)) } : Rescale)
      (blankClip r0.clipy (peakValue r0.clipy)) rfl rfl
  refine ⟨by rw [hread], by rw [hread], ?_, ?_⟩
  · simp only [Rescale._generate_upscale]
    rw [lineMergeStage_of_none _ _ rfl rfl, creditMergeStage_of_none _ _ rfl,
        cropRestoreStage_of_zero _ _ rfl]
  · rw [hread]
    simp only [Rescale._generate_upscale]
    rw [lineMergeStage_of_cond
          ({ r0 with _line_mask := some (blankClip r0.clipy (peakValue r0.clipy)) } : Rescale)
          _ (Or.inl rfl),
        hread2, creditMergeStage_of_none _ _ rfl, cropRestoreStage_of_zero _ _ rfl]

@[simp]
theorem maskedMerge_width (a b m : Clip) : (maskedMerge a b m).width = a.width := rfl

@[simp]
theorem maskedMerge_height (a b m : Clip) : (maskedMerge a b m).height = a.height := rfl

@[simp]
theorem addBorders_width (c : Clip) (l r t b : Nat) :
    (addBorders c l r t b).width = c.width + l + r := rfl

@[simp]
theorem addBorders_height (c : Clip) (l r t b : Nat) :
    (addBorders c l r t b).height = c.height + t + b := rfl

@[simp]
theorem peakValue_blankClip (c : Clip) (v : Nat) :
    peakValue (blankClip c v) = peakValue c := rfl

@[simp]
theorem peakValue_regionReplace (c : Clip) (l r t b v : Nat) :
    peakValue (regionReplace c l r t b v) = peakValue c := rfl

@[simp]
theorem credit_mask_snd_toBase (r : Rescale) :
    r.credit_mask.2.toRescaleBase = r.toRescaleBase := by
  cases h : r._credit_mask <;> simp [Rescale.credit_mask, h]

@[simp]
theorem credit_mask_snd_clipy (r : Rescale) : r.credit_mask.2.clipy = r.clipy := by
  cases h : r._credit_mask <;> simp [Rescale.credit_mask, h]

@[simp]
theorem credit_mask_snd_crop (r : Rescale) : r.credit_mask.2._crop = r._crop := by
  cases h : r._credit_mask <;> simp [Rescale.credit_mask, h]

@[simp]
theorem credit_mask_snd_pre (r : Rescale) : r.credit_mask.2._pre = r._pre := by
  cases h : r._credit_mask <;> simp [Rescale.credit_mask, h]

/-- The first two (mask-merge) stages of the upscale composition preserve the
luma geometry and do not touch the crop state or the pre-crop source. -/
theorem mergeStages_geometry (r : Rescale) (u : Clip)
    (hw : u.width = r.clipy.width) (hh : u.height = r.clipy.height) :
    ((r.lineMergeStage u).2.creditMergeStage (r.lineMergeStage u).1).1.width
        = r.clipy.width
    ∧ ((r.lineMergeStage u).2.creditMergeStage (r.lineMergeStage u).1).1.height
        = r.clipy.height
    ∧ ((r.lineMergeStage u).2.creditMergeStage (r.lineMergeStage u).1).2._crop
        = r._crop
    ∧ ((r.lineMergeStage u).2.creditMergeStage (r.lineMergeStage u).1).2._pre
        = r._pre := by
  unfold Rescale.lineMergeStage Rescale.creditMergeStage
  split <;> split <;> simp_all

/-- With a nonzero crop tuple, the crop-restoration step adds the borders
back and masked-merges against the pre-crop source luma under the
border-region mask. -/
theorem cropRestoreStage_of_pos (r : Rescale) (u : Clip) (L R T B : Nat)
    (h : r._crop = (L, R, T, B)) (hne : (L, R, T, B) ≠ ((0, 0, 0, 0) : Nat × Nat × Nat × Nat)) :
    r.cropRestoreStage u
      = maskedMerge (addBorders u L R T B) r._pre.y
          (regionReplace (blankClip r._pre.y 0) L R T B
            (peakValue (blankClip r._pre.y 0))) := by
  unfold Rescale.cropRestoreStage
  rw [if_pos (by rw [h]; exact hne)]
  simp [h]

/-- C6: with all four crop amounts positive (the luma having been cropped by
those amounts at construction), the upscale composition's output regains the
pre-crop dimensions, and every pixel of the border region — the left `L`
columns, right `R` columns, top `T` rows and bottom `B` rows — equals the
pre-crop source luma's pixel, because the restoration merge's mask is at peak
exactly on the border region of a blank clip. -/
theorem crop_border_restoration (r : Rescale) (c : Clip) (L R T B x y : Nat)
    (hc : r._crop = (L, R, T, B))
    (hL : 0 < L) (hR : 0 < R) (hT : 0 < T) (hB : 0 < B)
    (hw : r.clipy.width + L + R = r._pre.y.width)
    (hh : r.clipy.height + T + B = r._pre.y.height)
    (hpk : 0 < peakValue r._pre.y)
    (hborder : x < L ∨ r._pre.y.width - R ≤ x ∨ y < T ∨ r._pre.y.height - B ≤ y) :
    (r._generate_upscale c).1.width = r._pre.y.width
    ∧ (r._generate_upscale c).1.height = r._pre.y.height
    ∧ (r._generate_upscale c).1.pixels x y = r._pre.y.pixels x y := by
  have hne : (L, R, T, B) ≠ ((0, 0, 0, 0) : Nat × Nat × Nat × Nat) := by
    intro hcontra
    rw [Prod.ext_iff] at hcontra
    exact absurd hcontra.1 (Nat.pos_iff_ne_zero.mp hL)
  have hu : (r.toRescaleBase._generate_upscale c).width = r.clipy.width := rfl
  have hu2 : (r.toRescaleBase._generate_upscale c).height = r.clipy.height := rfl
  obtain ⟨hsw, hsh, hscrop, hspre⟩ :=
    mergeStages_geometry r (r.toRescaleBase._generate_upscale c) hu hu2
  have hmask :
      (regionReplace
          (blankClip (((r.lineMergeStage (r.toRescaleBase._generate_upscale c)).2.creditMergeStage
              (r.lineMergeStage (r.toRescaleBase._generate_upscale c)).1).2._pre.y) 0)
          L R T B
          (peakValue (blankClip (((r.lineMergeStage (r.toRescaleBase._generate_upscale c)).2.creditMergeStage
              (r.lineMergeStage (r.toRescaleBase._generate_upscale c)).1).2._pre.y) 0))).pixels x y
        = peakValue (blankClip (((r.lineMergeStage (r.toRescaleBase._generate_upscale c)).2.creditMergeStage
              (r.lineMergeStage (r.toRescaleBase._generate_upscale c)).1).2._pre.y) 0) := by
    rw [hspre]
    show (if x < L ∨ r._pre.y.width - R ≤ x ∨ y < T ∨ r._pre.y.height - B ≤ y then _ else _)
        = _
    rw [if_pos hborder]
  simp only [Rescale._generate_upscale]
  rw [cropRestoreStage_of_pos _ _ L R T B (by rw [hscrop, hc]) hne]
  refine ⟨?_, ?_, ?_⟩
  · simp [hsw, hspre, ← hw]
  · simp [hsh, hspre, ← hh]
  · rw [maskedMerge_pixels_peak _ _ _ x y (by simp [hspre, hpk]) hmask, hspre]

/-- A concrete 4x4 8-bit pre-crop luma plane with distinguishable pixels. -/
def exPreSmall : Clip :=
  { width := 4, height := 4, format := some 8,
    pixels := fun x y => x + 10 * y + 1, props := [] }

/-- The concrete 4x4 pre-crop video. -/
def exPreVid : Video :=
  { width := 4, height := 4, format := some 8, y := exPreSmall, chroma := [] }

/-- The concrete instance constructed with crop (1,1,1,1): its luma is the
cropped 2x2 plane and `_pre` the 4x4 source. -/
def exRescaleCrop : Rescale :=
  { toRescaleBase := { exBase with clipy := cropClip exPreSmall 1 1 1 1 },
    _line_mask := none, _credit_mask := none, _ignore_mask := none,
    _crop := (1, 1, 1, 1), _pre := exPreVid }

/-- C6 witness: the crop-border restoration applied to the concrete cropped
instance at the border pixel (0,0). -/
theorem crop_border_restoration_witness :
    exRescaleCrop._crop = (1, 1, 1, 1)
    ∧ exRescaleCrop.clipy.width + 1 + 1 = exRescaleCrop._pre.y.width
    ∧ ((exRescaleCrop._generate_upscale exClipY).1.width = exRescaleCrop._pre.y.width
      ∧ (exRescaleCrop._generate_upscale exClipY).1.height = exRescaleCrop._pre.y.height
      ∧ (exRescaleCrop._generate_upscale exClipY).1.pixels 0 0
          = exRescaleCrop._pre.y.pixels 0 0) :=
  ⟨rfl, rfl,
   crop_border_restoration exRescaleCrop exClipY 1 1 1 1 0 0 rfl
     (by decide) (by decide) (by decide) (by decide) rfl rfl (by decide)
     (Or.inl (by decide))⟩

/-- C5: with an ignore mask set, the descale is computed as two sequential
single-axis kernel passes — height-only on the source clip with the ignore
mask at source resolution and kwargs generated in height-only mode, then
width-only on the height-descaled intermediate with the ignore mask
point-resized to the intermediate's height and kwargs generated in width-only
mode (shown without a field-based policy, which would only wrap the whole
sequence) — and the instance's `ScalingArgs.mode` always ends restored to the
both-axes value `hw`. -/
theorem ignore_mask_two_pass_descale (r : Rescale) (c im : Clip) :
    (({ r with _ignore_mask := some im } : Rescale)._generate_descale c).2.descale_args.mode
        = SMode.hw
    ∧ (({ r with _ignore_mask := some im, field_based := none } : Rescale)._generate_descale c).1
      = addProps ({ r with _ignore_mask := some im, field_based := none } : Rescale).toRescaleBase
          "_generate_descale_ignore_mask"
          (r.kernel.descale
            (r.kernel.descale c none (some r.descale_args.height)
              (r.descale_args.kwargsFn SMode.h none) r.border_handling (some im))
            (some r.descale_args.width) none
            (r.descale_args.kwargsFn SMode.w none) r.border_handling
            (some (pointScale im
              (r.kernel.descale c none (some r.descale_args.height)
                (r.descale_args.kwargsFn SMode.h none) r.border_handling (some im)).height))) := by
  constructor
  · cases hfb : r.field_based <;>
      simp [Rescale._generate_descale, hfb, Rescale.descaleIgnorePasses]
  · rfl

/-- Looking up the key just set by `SetFrameProp` returns the value just
set. -/
theorem lookupProp_setFrameProp (c : Clip) (k v : String) :
    lookupProp (setFrameProp c k v) k = some v := by
  simp [lookupProp, setFrameProp, List.find?]

/-- The instance whose ignore mask is set (for the descale-tag behaviour). -/
def exRescaleIg : Rescale := { exRescale with _ignore_mask := some exGray }

/-- C7 counterexample: on the concrete instance with an ignore mask set, the
clip produced by the descale generator carries no property named after the
descale operation — the tag key is derived from the inner helper's name
`_generate_descale_ignore_mask` and comes out as "RescaleMaskFrom". -/
theorem descale_prop_name_cex :
    lookupProp (exRescaleIg._generate_descale exClipY).1 "RescaleDescaleFrom" = none
    ∧ lookupProp (exRescaleIg._generate_descale exClipY).1 "RescaleMaskFrom"
      = some (tagData exRescaleIg.toRescaleBase) :=
  ⟨rfl, rfl⟩

/-- C7 (amended): every clip produced by the single-pass descale, rescale,
doubled and upscale generators carries the frame property
`Rescale<Operation>From` holding the kernel class name and the effective
source width and height (integers rendered without decimals, fractional
values to exactly two decimal places; height 715.5 renders as "715.50" and
height 720 as "720") — except that the ignore-mask descale path tags its clip
under the key "RescaleMaskFrom" (derived from the inner helper's name) rather
than one naming the descale operation. -/
theorem generated_clip_props :
    (∀ (rb : RescaleBase) (c : Clip),
      lookupProp (rb._generate_descale c) "RescaleDescaleFrom" = some (tagData rb))
    ∧ (∀ (rb : RescaleBase) (c : Clip),
      lookupProp (rb._generate_rescale c) "RescaleRescaleFrom" = some (tagData rb))
    ∧ (∀ (rb : RescaleBase) (c : Clip),
      lookupProp (rb._generate_doubled c) "RescaleDoubledFrom" = some (tagData rb))
    ∧ (∀ (rb : RescaleBase) (c : Clip),
      lookupProp (rb._generate_upscale c) "RescaleUpscaleFrom" = some (tagData rb))
    ∧ (∀ (r : Rescale) (c im : Clip),
      lookupProp ((({ r with _ignore_mask := some im } : Rescale)._generate_descale c).1)
          "RescaleMaskFrom" = some (tagData r.toRescaleBase))
    ∧ fmtDim ((1431 : ℚ) / 2) = "715.50" ∧ fmtDim (720 : ℚ) = "720" := by
  have hdescale : propKeyOf "_generate_descale" = "RescaleDescaleFrom" := by decide
  have hrescale : propKeyOf "_generate_rescale" = "RescaleRescaleFrom" := by decide
  have hdoubled : propKeyOf "_generate_doubled" = "RescaleDoubledFrom" := by decide
  have hupscale : propKeyOf "_generate_upscale" = "RescaleUpscaleFrom" := by decide
  have hmask : propKeyOf "_generate_descale_ignore_mask" = "RescaleMaskFrom" := by decide
  refine ⟨?_, ?_, ?_, ?_, ?_, ?_, ?_⟩
  · intro rb c
    rw [RescaleBase._generate_descale, addProps, hdescale, lookupProp_setFrameProp]
  · intro rb c
    rw [RescaleBase._generate_rescale, addProps, hrescale, lookupProp_setFrameProp]
  · intro rb c
    rw [RescaleBase._generate_doubled, addProps, hdoubled, lookupProp_setFrameProp]
  · intro rb c
    rw [RescaleBase._generate_upscale, addProps, hupscale, lookupProp_setFrameProp]
  · intro r c im
    cases hfb : r.field_based <;>
      simp [Rescale._generate_descale, hfb, addProps, hmask, lookupProp_setFrameProp]
  · have hden : ((1431 : ℚ) / 2).den = 2 := by norm_num
    have hr : (round (((1431 : ℚ) / 2) * 100) : ℤ) = 71550 := by norm_num
    simp only [fmtDim, hden, hr]
    norm_num
    rfl
  · have hden : (720 : ℚ).den = 1 := by norm_num
    have hnum : (720 : ℚ).num = 720 := by norm_num
    simp only [fmtDim, hden, hnum]
    rfl

end VsScale
